import Mathlib

/-!
Formal model of `src/Optimus/molecular_backend_api.py` (ChemStudioPro).

The cheminformatics, drawing and external-database primitives that the
backend calls into (RDKit, PubChem) are modelled as an explicit oracle
record (`RDKit` below): each primitive is a function that may fail
(`Except String _`), mirroring a Python call that may raise an exception.
The service-layer code is translated statement by statement from the
source file; Python `try:/except:` blocks become explicit `Except`
plumbing, FastAPI's `HTTPException` becomes the `HTTPException` structure,
floats become rationals, and `bytes` values become code-point lists.
-/

/-- Abstract handle standing for an RDKit `Chem.Mol` object. -/
abbrev Mol := Nat

/-- Byte strings (`bytes` in Python), modelled as code-point lists. -/
abbrev Bytes := List Nat

/-- Model of `.encode()` on a Python string: the same string always
encodes to the same byte sequence. -/
def strEncode (s : String) : Bytes := s.toList.map Char.toNat

/-- Model of Python's `str.lower()`. -/
def strLower (s : String) : String := ⟨s.toList.map Char.toLower⟩

/-- FastAPI `HTTPException`: status code plus detail message. -/
structure HTTPException where
  status_code : Nat
  detail : String
  deriving DecidableEq, Repr

/-- Boolean test for a successful `Except` value. -/
def Except.okB : Except ε α → Bool
  | .ok _ => true
  | .error _ => false

/-- Oracle for the RDKit capabilities the backend uses.  Fields named after
the RDKit calls at the corresponding source lines: `parse` is
`Chem.MolFromSmiles` (returns `None` on an unparsable string, may also
raise), the descriptor fields are `Descriptors.MolLogP/TPSA/NumHDonors/
NumHAcceptors/NumRotatableBonds/MolWt`, `draw2d` is the result of
`generate_2d_structure` (its internal `try:` makes it total, returning
`None` on failure), and the remaining fields are the conversion
primitives used by `convert_format`. -/
structure RDKit where
  parse : String → Except String (Option Mol)
  logP : Mol → Except String ℚ
  tpsaD : Mol → Except String ℚ
  hDonors : Mol → Except String ℤ
  hAcceptors : Mol → Except String ℤ
  rotBonds : Mol → Except String ℤ
  molWt : Mol → Except String ℚ
  draw2d : Mol → Option String
  addHs : Mol → Except String Mol
  embed3d : Mol → Except String Mol
  mmffOpt : Mol → Except String Mol
  compute2d : Mol → Except String Mol
  molBlock : Mol → Except String String
  pdbBlock : Mol → Except String String
  pngBytes : Mol → Except String Bytes
  svgText : Mol → Except String String

/-- Model of Python's `round(x, 2)` (ties modelled as round-half-up). -/
def roundTo2 (x : ℚ) : ℚ := ((round (x * 100) : ℤ) : ℚ) / 100

/-- Pydantic model `MoleculeProperties` (source lines 125-131): every
field is `Optional` with default `None`. -/
structure MoleculeProperties where
  logP : Option ℚ := none
  tpsa : Option ℚ := none
  hbondDonors : Option ℤ := none
  hbondAcceptors : Option ℤ := none
  rotatablebonds : Option ℤ := none
  lipinski : Option Bool := none
  deriving DecidableEq, Repr

/-- The record with every property field absent (`MoleculeProperties()`). -/
def MoleculeProperties.empty : MoleculeProperties := {}

/-- True when every field of the properties group is present. -/
def MoleculeProperties.isFull (p : MoleculeProperties) : Bool :=
  p.logP.isSome && p.tpsa.isSome && p.hbondDonors.isSome &&
  p.hbondAcceptors.isSome && p.rotatablebonds.isSome && p.lipinski.isSome

namespace ChemistryService

/-- `ChemistryService.smiles_to_mol` (source lines 168-176): calls
`Chem.MolFromSmiles` inside `try:`; returns the molecule on success and
`None` both when the parser returns `None` and when it raises. -/
def smiles_to_mol (rk : RDKit) (smiles : String) : Option Mol :=
  match rk.parse smiles with
  | .ok m => m
  | .error _ => none

/-- `ChemistryService.calculate_properties` (source lines 188-210): builds
the five descriptor fields, then sets `lipinski` from the short-circuit
conjunction `logP <= 5 and hbd <= 5 and hba <= 10 and MolWt(mol) <= 500`
(so `MolWt` is only consulted when the first three tests pass); any
raising descriptor call makes the whole `try:` fail and the function
return `MoleculeProperties()` (all fields absent). -/
def calculate_properties (rk : RDKit) (mol : Mol) : MoleculeProperties :=
  match rk.logP mol, rk.tpsaD mol, rk.hDonors mol, rk.hAcceptors mol, rk.rotBonds mol with
  | .ok lp, .ok tp, .ok hd, .ok ha, .ok rb =>
    let lp2 := roundTo2 lp
    if lp2 ≤ 5 ∧ hd ≤ 5 ∧ ha ≤ 10 then
      match rk.molWt mol with
      | .ok wt =>
        { logP := some lp2, tpsa := some (roundTo2 tp), hbondDonors := some hd,
          hbondAcceptors := some ha, rotatablebonds := some rb,
          lipinski := some (decide (wt ≤ 500)) }
      | .error _ => {}
    else
      { logP := some lp2, tpsa := some (roundTo2 tp), hbondDonors := some hd,
        hbondAcceptors := some ha, rotatablebonds := some rb,
        lipinski := some false }
  | _, _, _, _, _ => {}

/-- Formats that trigger 3D embedding in `convert_format` (line 269). -/
def formatNeeds3D (fmt : String) : Bool :=
  fmt = "sdf" || fmt = "mol2" || fmt = "pdb" || fmt = "pdbqt"

/-- The preamble of `convert_format` (source lines 263-272): copy the
molecule, optionally add hydrogens, and for the 3D-requiring formats run
the seeded 3D embedding followed, when `minimize` is set, by the bounded
MMFF optimization. -/
def convert_prep (rk : RDKit) (mol : Mol) (fmt : String)
    (add_hydrogens minimize : Bool) : Except String Mol :=
  match (if add_hydrogens then rk.addHs mol else .ok mol) with
  | .error e => .error e
  | .ok m1 =>
    if formatNeeds3D fmt then
      match rk.embed3d m1 with
      | .error e => .error e
      | .ok m2 => if minimize then rk.mmffOpt m2 else .ok m2
    else .ok m1

/-- The serializer dispatch of `convert_format` (source lines 274-307):
bytes produced for the prepared molecule, together with the
warning-level log messages emitted on the `mol2` and `pdbqt` fallback
branches; an unrecognized format is the trailing `raise ValueError`. -/
def convert_serialize (rk : RDKit) (fmt target_format : String)
    (prep : Except String Mol) : Except String Bytes × List String :=
  match prep with
  | .error e => (.error e, [])
  | .ok m2 =>
    if fmt = "sdf" then ((rk.molBlock m2).map strEncode, [])
    else if fmt = "pdb" then ((rk.pdbBlock m2).map strEncode, [])
    else if fmt = "mol2" then
      ((rk.molBlock m2).map strEncode,
        ["MOL2 format not fully supported, returning SDF"])
    else if fmt = "pdbqt" then
      ((rk.pdbBlock m2).map strEncode,
        ["PDBQT format requires additional processing, returning PDB"])
    else if fmt = "png" then
      (match rk.compute2d m2 with
       | .error e => .error e
       | .ok c => rk.pngBytes c, [])
    else if fmt = "svg" then
      (match rk.compute2d m2 with
       | .error e => .error e
       | .ok c => (rk.svgText c).map strEncode, [])
    else (.error ("Unsupported format: " ++ target_format), [])

/-- `ChemistryService.convert_format` (source lines 260-311).  Returns the
produced bytes (or the `HTTPException(400, "Conversion error: ...")`
raised by its own `except:` handler) together with the list of
warning-level log messages emitted. -/
def convert_format (rk : RDKit) (mol : Mol) (target_format : String)
    (add_hydrogens minimize : Bool) : Except HTTPException Bytes × List String :=
  let fmt := strLower target_format
  match convert_serialize rk fmt target_format
      (convert_prep rk mol fmt add_hydrogens minimize) with
  | (.ok b, w) => (.ok b, w)
  | (.error e, w) =>
    (.error { status_code := 400, detail := "Conversion error: " ++ e }, w)

end ChemistryService

/-- Row of the `molecules` table (`MoleculeDB`, source lines 69-97);
only the columns the search path reads are modelled. -/
structure MoleculeDB where
  name : String
  smiles : String
  inchi : String
  inchi_key : String
  cas_number : Option String := none
  molecular_weight : Option ℚ := none
  molecular_formula : Option String := none
  pubchem_cid : Option String := none
  drugbank_id : Option String := none
  chembl_id : Option String := none
  logp : Option ℚ := none
  tpsa : Option ℚ := none
  hbd : Option ℤ := none
  hba : Option ℤ := none
  rotatable_bonds : Option ℤ := none
  lipinski_pass : Option Bool := none
  structure_2d : Option String := none
  structure_3d : Option String := none
  deriving DecidableEq, Repr

/-- Pydantic model `MoleculeResponse` (source lines 133-146). -/
structure MoleculeResponse where
  name : String
  smiles : String
  inchi : String
  inchiKey : String
  casNumber : Option String := none
  molecularWeight : Option ℚ := none
  molecularFormula : Option String := none
  pubchemCID : Option String := none
  drugbankID : Option String := none
  chemblID : Option String := none
  structure2D : Option String := none
  structure3D : Option String := none
  properties : Option MoleculeProperties := none
  deriving DecidableEq, Repr

/-- Pydantic model `SearchRequest` (source lines 114-117). -/
structure SearchRequest where
  query : String
  type : String
  limit : Nat
  deriving DecidableEq, Repr

/-- Pydantic model `ExportRequest` (source lines 119-123). -/
structure ExportRequest where
  smiles : String
  format : String
  add_hydrogens : Bool := true
  minimize : Bool := true
  deriving DecidableEq, Repr

/-- Pydantic model `SearchResponse` (source lines 148-152). -/
structure SearchResponse where
  molecules : List MoleculeResponse
  total : Nat
  query : String
  search_type : String
  deriving DecidableEq, Repr

/-- Characters of a string, lower-cased. -/
def lowerChars (s : String) : List Char := s.toList.map Char.toLower

/-- Whether `pat` occurs as a contiguous sublist of `hay`. -/
def listSub (pat hay : List Char) : Bool :=
  (List.range (hay.length + 1)).any (fun i => decide ((hay.drop i).take pat.length = pat))

/-- Case-insensitive literal substring containment — the semantics the
spec's sentence asserts for the name search; kept for comparison with the
code's actual ILIKE semantics (`ilikeContains` below), with which it
coincides exactly when the query is free of LIKE metacharacters. -/
def containsCI (hay pat : String) : Bool := listSub (lowerChars pat) (lowerChars hay)

/-- Tokens of a SQL LIKE pattern: `%` matches any character sequence,
`_` matches exactly one character, and a literal character (a backslash,
the default LIKE escape character, makes the following character
literal). -/
inductive LikeTok where
  | any
  | one
  | lit (c : Char)
  deriving DecidableEq, Repr

/-- Tokenize a LIKE pattern, honouring the default backslash escape. -/
def likeToks : List Char → List LikeTok
  | [] => []
  | c :: rest =>
    if c = '\\' then
      match rest with
      | [] => []
      | d :: rest2 => .lit d :: likeToks rest2
    else if c = '%' then .any :: likeToks rest
    else if c = '_' then .one :: likeToks rest
    else .lit c :: likeToks rest

/-- Split a token list into the maximal runs between `%` tokens. -/
def likeSegs : List LikeTok → List (List LikeTok)
  | [] => [[]]
  | t :: rest =>
    if t = .any then [] :: likeSegs rest
    else
      match likeSegs rest with
      | [] => [[t]]
      | s :: ss => (t :: s) :: ss

/-- Whether a `%`-free token segment matches a prefix of the text. -/
def segMatchAt : List LikeTok → List Char → Bool
  | [], _ => true
  | _ :: _, [] => false
  | .one :: ss, _ :: ts => segMatchAt ss ts
  | .lit c :: ss, x :: ts => (x == c) && segMatchAt ss ts
  | .any :: _, _ :: _ => false

/-- Earliest position at which the segment matches; returns the text that
remains after the matched window. -/
def findSeg (seg : List LikeTok) : List Char → Option (List Char)
  | [] => if seg.isEmpty then some [] else none
  | x :: ts =>
    if segMatchAt seg (x :: ts) then some ((x :: ts).drop seg.length)
    else findSeg seg ts

/-- Greedy matching of the `%`-separated segments against the text: every
segment but the last floats (in the patterns built below it is preceded
and followed by `%`, which makes greedy earliest matching complete), and
the last segment is anchored at the end of the text (it is the part after
the final `%`; when the pattern ends in `%` that part is empty and the
anchor is vacuous). -/
def matchSegs : List (List LikeTok) → List Char → Bool
  | [], t => t.isEmpty
  | [seg], t =>
    decide (seg.length ≤ t.length) && segMatchAt seg (t.drop (t.length - seg.length))
  | seg :: rest, t =>
    match findSeg seg t with
    | some t2 => matchSegs rest t2
    | none => false

/-- Model of `column ILIKE '%' + query + '%'` (source line 324): the raw
query is interpolated unescaped, so `%` and `_` inside it act as SQL LIKE
wildcards and backslash as the escape character; ILIKE compares
case-insensitively, modelled by lower-casing both pattern and text. -/
def ilikeContains (hay pat : String) : Bool :=
  matchSegs (likeSegs (likeToks ('%' :: (lowerChars pat ++ ['%'])))) (lowerChars hay)

namespace DatabaseService

/-- `DatabaseService.search_molecules` (source lines 318-347): the store
is modelled as the list of rows; `name` search filters by
`ILIKE '%query%'`, `cas`/`smiles`/`inchi_key` filter by equality, each
truncated by `.limit(limit)`; any other `search_type` (the final `else`)
returns the empty list. -/
def search_molecules (db : List MoleculeDB) (query search_type : String)
    (limit : Nat) : List MoleculeDB :=
  if search_type = "name" then
    (db.filter (fun m => ilikeContains m.name query)).take limit
  else if search_type = "cas" then
    (db.filter (fun m => m.cas_number = some query)).take limit
  else if search_type = "smiles" then
    (db.filter (fun m => m.smiles = query)).take limit
  else if search_type = "inchi_key" then
    (db.filter (fun m => m.inchi_key = query)).take limit
  else []

end DatabaseService

/-- One `mol_data` dictionary produced by
`ExternalAPIService.search_pubchem` (source lines 385-394): the
PubChem-derived fields may individually be `None`. -/
structure PubChemHit where
  name : String
  smiles : Option String := none
  inchi : Option String := none
  inchi_key : Option String := none
  molecular_weight : Option ℚ := none
  molecular_formula : Option String := none
  pubchem_cid : Option String := none
  cas_number : Option String := none
  deriving DecidableEq, Repr

namespace ExternalAPIService

/-- `ExternalAPIService.search_pubchem` (source lines 369-404): for the
supported search types it walks the first ten raw compounds, skipping any
whose `mol_data` extraction raises (`except: continue`); any other search
type returns no results.  The raw compound stream returned by the PubChem
client is an oracle input, each element either a hit or a raised
extraction error. -/
def search_pubchem (search_type : String)
    (compounds : List (Except String PubChemHit)) : List PubChemHit :=
  if search_type = "name" || search_type = "cas" || search_type = "smiles" then
    (compounds.take 10).filterMap Except.toOption
  else []

end ExternalAPIService

/-- Python `max(0, limit - len(all_results))` (source line 495), computed
over the integers. -/
def remaining_limit (limit count : Nat) : Nat :=
  (max 0 ((limit : ℤ) - (count : ℤ))).toNat

/-- The inline `MoleculeResponse(...)` construction for a local-store row
(source lines 470-491): the `properties` object is attached exactly when
the row's `logp` column is non-null, copying the stored columns
field by field. -/
def localToResponse (m : MoleculeDB) : MoleculeResponse :=
  { name := m.name, smiles := m.smiles, inchi := m.inchi, inchiKey := m.inchi_key,
    casNumber := m.cas_number, molecularWeight := m.molecular_weight,
    molecularFormula := m.molecular_formula, pubchemCID := m.pubchem_cid,
    drugbankID := m.drugbank_id, chemblID := m.chembl_id,
    structure2D := m.structure_2d, structure3D := m.structure_3d,
    properties :=
      if m.logp.isSome then
        some { logP := m.logp, tpsa := m.tpsa, hbondDonors := m.hbd,
               hbondAcceptors := m.hba, rotatablebonds := m.rotatable_bonds,
               lipinski := m.lipinski_pass }
      else none }

/-- The enrichment step for one external hit (source lines 502-510):
`properties`/`structure_2d` are computed only when `mol_data.get('smiles')`
is truthy (present and non-empty) and the SMILES parses; otherwise both
stay `None`. -/
def hitEnrich (rk : RDKit) (hit : PubChemHit) :
    Option MoleculeProperties × Option String :=
  match hit.smiles with
  | some s =>
    if s.isEmpty then (none, none)
    else
      match ChemistryService.smiles_to_mol rk s with
      | some mol => (some (ChemistryService.calculate_properties rk mol), rk.draw2d mol)
      | none => (none, none)
  | none => (none, none)

/-- The inline `MoleculeResponse(...)` construction for an external hit
(source lines 512-523).  Pydantic requires `smiles`, `inchi` and
`inchiKey` to be strings, so a hit in which any of them is `None` raises
a `ValidationError` (modelled as the error case). -/
def hitToResponse (rk : RDKit) (hit : PubChemHit) : Except String MoleculeResponse :=
  let e := hitEnrich rk hit
  match hit.smiles, hit.inchi, hit.inchi_key with
  | some s, some i, some k =>
    .ok { name := hit.name, smiles := s, inchi := i, inchiKey := k,
          casNumber := hit.cas_number, molecularWeight := hit.molecular_weight,
          molecularFormula := hit.molecular_formula, pubchemCID := hit.pubchem_cid,
          structure2D := e.2, properties := e.1 }
  | _, _, _ => .error "ValidationError"

/-- The external-hit loop of the search endpoint (source lines 501-524):
each hit is converted in order; the first raised `ValidationError` aborts
the whole `try:` block. -/
def processHits (rk : RDKit) : List PubChemHit → Except String (List MoleculeResponse)
  | [] => .ok []
  | h :: t =>
    match hitToResponse rk h with
    | .ok r =>
      match processHits rk t with
      | .ok rs => .ok (r :: rs)
      | .error e => .error e
    | .error e => .error e

/-- Body of the `try:` block of the `search_molecules` endpoint (source
lines 463-530): collect local rows, compute `remaining_limit`, and only
when it is positive consume up to `remaining_limit` PubChem hits. -/
def aggregated (rk : RDKit) (db : List MoleculeDB)
    (compounds : List (Except String PubChemHit)) (req : SearchRequest) :
    Except String (List MoleculeResponse) :=
  let localResp :=
    (DatabaseService.search_molecules db req.query req.type req.limit).map localToResponse
  let remaining := remaining_limit req.limit localResp.length
  if remaining > 0 then
    match processHits rk
        ((ExternalAPIService.search_pubchem req.type compounds).take remaining) with
    | .ok ext => .ok (localResp ++ ext)
    | .error e => .error e
  else .ok localResp

/-- The `search_molecules` endpoint (source lines 456-541): on success the
response carries `all_results[:limit]` and `total = len(all_results)`; any
exception inside the `try:` is re-raised as `HTTPException(500, ...)`. -/
def search_molecules (rk : RDKit) (db : List MoleculeDB)
    (compounds : List (Except String PubChemHit)) (req : SearchRequest) :
    Except HTTPException SearchResponse :=
  match aggregated rk db compounds req with
  | .ok all =>
    .ok { molecules := all.take req.limit, total := all.length,
          query := req.query, search_type := req.type }
  | .error e => .error { status_code := 500, detail := "Search failed: " ++ e }

/-- Python exceptions reaching an endpoint's `except Exception` handler:
either an `HTTPException` raised inside the `try:` block or some other
exception. -/
inductive PyError where
  | httpExc (e : HTTPException)
  | other (msg : String)
  deriving DecidableEq, Repr

/-- Python `str(e)`: Starlette's `HTTPException.__str__` renders as
`"<status>: <detail>"`. -/
def PyError.str : PyError → String
  | .httpExc e => toString e.status_code ++ ": " ++ e.detail
  | .other m => m

/-- The `content_types` lookup of the export endpoint (source
lines 556-565), applied to the lower-cased format. -/
def content_type_for (fmt : String) : String :=
  if fmt = "sdf" then "chemical/x-mdl-sdfile"
  else if fmt = "mol2" then "chemical/x-mol2"
  else if fmt = "pdb" then "chemical/x-pdb"
  else if fmt = "pdbqt" then "text/plain"
  else if fmt = "png" then "image/png"
  else if fmt = "svg" then "image/svg+xml"
  else "application/octet-stream"

/-- The `StreamingResponse` assembled by the export endpoint (source
lines 567-574). -/
structure ExportResult where
  data : Bytes
  media_type : String
  filename : String
  content_length : Nat
  deriving DecidableEq, Repr

/-- The `export_molecule` endpoint (source lines 543-578).  Inside the
`try:` block an unparsable SMILES raises `HTTPException(400, "Invalid
SMILES string")` and `convert_format` raises `HTTPException(400,
"Conversion error: ...")`; both are instances of `Exception`, so the
endpoint's own `except Exception` handler catches them and re-raises
`HTTPException(500, "Export failed: " + str(e))`. -/
def export_molecule (rk : RDKit) (req : ExportRequest) :
    Except HTTPException ExportResult :=
  let inner : Except PyError ExportResult :=
    match ChemistryService.smiles_to_mol rk req.smiles with
    | none => .error (.httpExc { status_code := 400, detail := "Invalid SMILES string" })
    | some mol =>
      match (ChemistryService.convert_format rk mol req.format
              req.add_hydrogens req.minimize).1 with
      | .error he => .error (.httpExc he)
      | .ok fileData =>
        .ok { data := fileData, media_type := content_type_for (strLower req.format),
              filename := "molecule." ++ req.format, content_length := fileData.length }
  match inner with
  | .ok r => .ok r
  | .error e => .error { status_code := 500, detail := "Export failed: " ++ e.str }

/-- Stub oracle in which every capability succeeds with a fixed value;
used as the base for concrete evaluations. -/
def rkStub : RDKit :=
  { parse := fun _ => .ok (some 0),
    logP := fun _ => .ok 0, tpsaD := fun _ => .ok 0,
    hDonors := fun _ => .ok 0, hAcceptors := fun _ => .ok 0,
    rotBonds := fun _ => .ok 0, molWt := fun _ => .ok 0,
    draw2d := fun _ => none,
    addHs := fun m => .ok m, embed3d := fun m => .ok m, mmffOpt := fun m => .ok m,
    compute2d := fun m => .ok m,
    molBlock := fun _ => .ok "MOLBLOCK", pdbBlock := fun _ => .ok "PDBBLOCK",
    pngBytes := fun _ => .ok [1], svgText := fun _ => .ok "SVG" }

/-- Rounding an integer rational to two decimals leaves it unchanged. -/
theorem roundTo2_intCast (n : ℤ) : roundTo2 ((n : ℚ)) = (n : ℚ) := by
  unfold roundTo2
  have h1 : ((n : ℚ) * 100) = ((n * 100 : ℤ) : ℚ) := by push_cast; ring
  rw [h1, round_intCast]
  push_cast
  field_simp

/-- C1: for every molecule on which the Property Calculator succeeds (all
descriptor calls return), the derived Lipinski flag is true if and only if
the reported logP ≤ 5, H-bond donors ≤ 5, H-bond acceptors ≤ 10 and the
molecular weight ≤ 500, all four thresholds inclusive. -/
theorem C1_lipinski_iff (rk : RDKit) (mol : Mol) (lp tp wt : ℚ) (hd ha rb : ℤ)
    (h1 : rk.logP mol = .ok lp) (h2 : rk.tpsaD mol = .ok tp)
    (h3 : rk.hDonors mol = .ok hd) (h4 : rk.hAcceptors mol = .ok ha)
    (h5 : rk.rotBonds mol = .ok rb) (h6 : rk.molWt mol = .ok wt) :
    (ChemistryService.calculate_properties rk mol).lipinski
        = some (decide (roundTo2 lp ≤ 5 ∧ hd ≤ 5 ∧ ha ≤ 10 ∧ wt ≤ 500))
    ∧ ((ChemistryService.calculate_properties rk mol).lipinski = some true ↔
        (roundTo2 lp ≤ 5 ∧ hd ≤ 5 ∧ ha ≤ 10 ∧ wt ≤ 500))
    ∧ (ChemistryService.calculate_properties rk mol).logP = some (roundTo2 lp) := by
  unfold ChemistryService.calculate_properties
  rw [h1, h2, h3, h4, h5, h6]
  dsimp only
  by_cases hc : (roundTo2 lp ≤ 5 ∧ hd ≤ 5 ∧ ha ≤ 10)
  · rw [if_pos hc]
    have hdec : (decide (roundTo2 lp ≤ 5 ∧ hd ≤ 5 ∧ ha ≤ 10 ∧ wt ≤ 500))
        = decide (wt ≤ 500) := by
      apply decide_eq_decide.mpr
      exact ⟨fun h => h.2.2.2, fun h => ⟨hc.1, hc.2.1, hc.2.2, h⟩⟩
    refine ⟨by rw [hdec], ?_, rfl⟩
    simp only [Option.some.injEq, decide_eq_true_eq]
    exact ⟨fun h => ⟨hc.1, hc.2.1, hc.2.2, h⟩, fun h => h.2.2.2⟩
  · rw [if_neg hc]
    have hdec : (decide (roundTo2 lp ≤ 5 ∧ hd ≤ 5 ∧ ha ≤ 10 ∧ wt ≤ 500)) = false := by
      apply decide_eq_false
      exact fun h => hc ⟨h.1, h.2.1, h.2.2.1⟩
    refine ⟨by rw [hdec], ?_, rfl⟩
    simp only [Option.some.injEq, Bool.false_eq_true, false_iff]
    exact fun h => hc ⟨h.1, h.2.1, h.2.2.1⟩

/-- Oracle for the first Lipinski example of the spec: logP 3, TPSA 50,
2 donors, 4 acceptors, 1 rotatable bond, weight 250. -/
def c1rkA : RDKit :=
  { rkStub with
    logP := fun _ => .ok 3, tpsaD := fun _ => .ok 50,
    hDonors := fun _ => .ok 2, hAcceptors := fun _ => .ok 4,
    rotBonds := fun _ => .ok 1, molWt := fun _ => .ok 250 }

/-- Oracle for the second Lipinski example: same as `c1rkA` but weight 600. -/
def c1rkB : RDKit := { c1rkA with molWt := fun _ => .ok 600 }

/-- Witness for C1: the spec's two example molecules — logP 3 / 2 donors /
4 acceptors / weight 250 passes, the same with weight 600 fails. -/
theorem C1_lipinski_iff_witness :
    (ChemistryService.calculate_properties c1rkA 0).lipinski = some true
    ∧ (ChemistryService.calculate_properties c1rkB 0).lipinski = some false := by
  have hr3 : roundTo2 3 = 3 := by simpa using roundTo2_intCast 3
  constructor
  · have h := C1_lipinski_iff c1rkA 0 3 50 250 2 4 1 rfl rfl rfl rfl rfl rfl
    rw [h.1, hr3]
    rfl
  · have h := C1_lipinski_iff c1rkB 0 3 50 600 2 4 1 rfl rfl rfl rfl rfl rfl
    rw [h.1, hr3]
    rfl

/-- C6: the Structure Normalizer never raises — its model is a total
function into `Option Mol` — and it returns the invalid marker `none`
exactly when the underlying parser returned `None` or raised. -/
theorem C6_normalizer_total (rk : RDKit) (s : String) :
    ChemistryService.smiles_to_mol rk s = none ↔
      (rk.parse s = .ok none ∨ ∃ e, rk.parse s = .error e) := by
  unfold ChemistryService.smiles_to_mol
  cases hp : rk.parse s with
  | ok m => cases m <;> simp
  | error e => simp

/-- Oracle whose parser rejects every string. -/
def c6rk : RDKit := { rkStub with parse := fun _ => .ok none }

/-- Witness for C6: on a rejected string the Normalizer returns `none`. -/
theorem C6_normalizer_total_witness :
    ChemistryService.smiles_to_mol c6rk "C((" = none :=
  (C6_normalizer_total c6rk "C((").mpr (Or.inl rfl)

/-- Oracle whose parser rejects every string (export scenario). -/
def c3rk : RDKit := { rkStub with parse := fun _ => .ok none }

/-- Export request with an unparsable SMILES string. -/
def c3req : ExportRequest := { smiles := "C((", format := "sdf" }

/-- C3: evidence for the status mix-up in `export_molecule`.  The endpoint
raises `HTTPException(400, "Invalid SMILES string")` for an unparsable
SMILES, but its own blanket `except Exception` handler catches that very
exception and re-raises it as status 500 — so an invalid structure is
reported as a server fault, contradicting the documented 400 contract. -/
theorem C3_invalid_smiles_yields_500 :
    export_molecule c3rk c3req
      = .error { status_code := 500,
                 detail := "Export failed: 400: Invalid SMILES string" } := by
  rfl

/-- Local row whose InChI key collides with the external hit below. -/
def c2row : MoleculeDB :=
  { name := "aspirin", smiles := "CCO", inchi := "InChI-A", inchi_key := "AAA" }

/-- External hit carrying the same standard identifier key `AAA`. -/
def c2hit : PubChemHit :=
  { name := "aspirin", smiles := some "CCO", inchi := some "InChI-A",
    inchi_key := some "AAA", pubchem_cid := some "2244" }

/-- Search request used in the duplicate-key scenario. -/
def c2req : SearchRequest := { query := "asp", type := "name", limit := 20 }

/-- C2: evidence that cross-source deduplication is absent.  With one
local row keyed `AAA` and one PubChem hit keyed `AAA`, the search
endpoint appends the external hit unconditionally (source lines 501-524
perform no key comparison), so the response contains two molecules with
the same `inchiKey` instead of one merged record. -/
theorem C2_duplicate_keys :
    Except.map (fun r => r.molecules.map (fun m => m.inchiKey))
        (search_molecules rkStub [c2row] [.ok c2hit] c2req)
      = .ok ["AAA", "AAA"] := by
  rfl

/-- Local row with a non-null `logp` column but null `tpsa`, `hbd`, `hba`,
`rotatable_bonds` and `lipinski_pass` columns. -/
def c7row : MoleculeDB :=
  { name := "halfrow", smiles := "CC", inchi := "InChI-P", inchi_key := "KP",
    logp := some 1 }

/-- Search request for the incomplete-properties scenario. -/
def c7req : SearchRequest := { query := "half", type := "name", limit := 20 }

/-- The properties object the endpoint returns for `c7row`: `logP`
present, every other field absent. -/
def c7props : MoleculeProperties := { logP := some 1 }

/-- C7 counterexample: the claim that every returned Molecule carries all
property fields or no properties object at all is false — a local row
whose `logp` column is set but whose other property columns are null
yields a response molecule with a properties object in which only `logP`
is present (the source gates the whole object on `logp is not None` only,
lines 483-490). -/
theorem C7_incomplete_props_counterexample :
    Except.map (fun r => r.molecules.map (fun m => m.properties))
        (search_molecules rkStub [c7row] [] c7req)
      = .ok [some c7props]
    ∧ c7props.isFull = false ∧ c7props.logP.isSome = true := by
  exact ⟨rfl, rfl, rfl⟩

/-- Oracle whose parser rejects exactly the string `"XX"`. -/
def c4rk : RDKit :=
  { rkStub with parse := fun s => if s = "XX" then .ok none else .ok (some 0) }

/-- External hit whose SMILES string is present but unparsable. -/
def c4hit : PubChemHit :=
  { name := "junk", smiles := some "XX", inchi := some "InChI-J",
    inchi_key := some "KJ" }

/-- Search request for the unusable-structure scenario. -/
def c4req : SearchRequest := { query := "jun", type := "name", limit := 5 }

/-- C4 counterexample: an external hit whose SMILES does not parse is not
dropped — it appears in the returned molecule list (with `properties` and
`structure2D` both absent), because the `if mol_data.get('smiles')` guard
at line 506 only skips the enrichment step while the append at line 524
is unconditional. -/
theorem C4_unusable_hit_kept :
    Except.map
        (fun r => r.molecules.map (fun m => (m.smiles, m.properties, m.structure2D)))
        (search_molecules c4rk [] [.ok c4hit] c4req)
      = .ok [("XX", none, none)] := by
  rfl

/-- A hit whose SMILES is absent makes the pydantic construction raise. -/
theorem hitToResponse_err_of_no_smiles (rk : RDKit) (hit : PubChemHit)
    (h : hit.smiles = none) : hitToResponse rk hit = .error "ValidationError" := by
  simp only [hitToResponse, h]

/-- If one hit of the loop raises, the whole loop raises. -/
theorem processHits_error_of_mem (rk : RDKit) {l : List PubChemHit}
    {hit : PubChemHit} (hmem : hit ∈ l)
    (herr : ∃ e0, hitToResponse rk hit = .error e0) :
    ∃ e, processHits rk l = .error e := by
  induction l with
  | nil => cases hmem
  | cons h t ih =>
    cases hmem with
    | head =>
      obtain ⟨e0, he⟩ := herr
      exact ⟨e0, by simp [processHits, he]⟩
    | tail _ hmem' =>
      obtain ⟨e, hp⟩ := ih hmem'
      cases hh : hitToResponse rk h with
      | ok r => exact ⟨e, by simp [processHits, hh, hp]⟩
      | error e1 => exact ⟨e1, by simp [processHits, hh]⟩

/-- C4 (amended): an external hit with a present but unparsable structure
string is kept in the result set, only unenriched (`properties` and
`structure2D` absent); and an external hit whose structure string is
absent is not dropped either — it makes the whole request fail with
HTTP status 500. -/
theorem C4_amended_kept_or_500 (rk : RDKit) (hit : PubChemHit) (s i k : String)
    (db : List MoleculeDB) (raw : List (Except String PubChemHit))
    (req : SearchRequest) (hit2 : PubChemHit)
    (hs : hit.smiles = some s) (hi : hit.inchi = some i)
    (hk : hit.inchi_key = some k)
    (hparse : ChemistryService.smiles_to_mol rk s = none)
    (hmem : hit2 ∈ (ExternalAPIService.search_pubchem req.type raw).take
        (remaining_limit req.limit
          (DatabaseService.search_molecules db req.query req.type req.limit).length))
    (hnone : hit2.smiles = none) :
    (∃ r, hitToResponse rk hit = .ok r ∧ r.smiles = s ∧ r.properties = none
        ∧ r.structure2D = none)
    ∧ (∃ d, search_molecules rk db raw req
          = .error { status_code := 500, detail := d }) := by
  constructor
  · have henr : hitEnrich rk hit = (none, none) := by
      unfold hitEnrich
      rw [hs]
      cases he : s.isEmpty <;> simp [he, hparse]
    have hresp : hitToResponse rk hit = .ok
        { name := hit.name, smiles := s, inchi := i, inchiKey := k,
          casNumber := hit.cas_number, molecularWeight := hit.molecular_weight,
          molecularFormula := hit.molecular_formula, pubchemCID := hit.pubchem_cid,
          structure2D := none, properties := none } := by
      simp only [hitToResponse, henr, hs, hi, hk]
    exact ⟨_, hresp, rfl, rfl, rfl⟩
  · have herr2 := hitToResponse_err_of_no_smiles rk hit2 hnone
    obtain ⟨e, hpe⟩ := processHits_error_of_mem rk hmem ⟨_, herr2⟩
    have hpos : 0 < remaining_limit req.limit
        (DatabaseService.search_molecules db req.query req.type req.limit).length := by
      rcases Nat.eq_zero_or_pos (remaining_limit req.limit
          (DatabaseService.search_molecules db req.query req.type req.limit).length) with h0 | h0
      · rw [h0] at hmem; simp at hmem
      · exact h0
    have hagg : aggregated rk db raw req = .error e := by
      unfold aggregated
      simp only [List.length_map]
      rw [if_pos hpos, hpe]
    refine ⟨"Search failed: " ++ e, ?_⟩
    unfold search_molecules
    rw [hagg]

/-- A hit whose SMILES field is absent. -/
def c4hitN : PubChemHit := { name := "nosmiles" }

/-- Search request for the absent-structure scenario. -/
def c4wreq : SearchRequest := { query := "x", type := "name", limit := 5 }

/-- Witness for the amended C4: the unparsable hit `c4hit` is kept
unenriched, and a search whose external stream contains the
smiles-less hit `c4hitN` fails with status 500. -/
theorem C4_amended_kept_or_500_witness :
    (∃ r, hitToResponse c4rk c4hit = .ok r ∧ r.smiles = "XX" ∧ r.properties = none
        ∧ r.structure2D = none)
    ∧ (∃ d, search_molecules c4rk [] [.ok c4hitN] c4wreq
          = .error { status_code := 500, detail := d }) :=
  C4_amended_kept_or_500 c4rk c4hit "XX" "InChI-J" "KJ" [] [.ok c4hitN] c4wreq c4hitN
    rfl rfl rfl rfl (by decide) rfl

/-- C7 (amended): the Property Calculator itself is all-or-nothing — its
result is either the empty record or a record with every field present —
but a response molecule built from the local store carries a properties
object exactly when the stored `logp` column is non-null, with the
remaining columns copied individually and therefore possibly absent. -/
theorem C7_amended_atomicity (rk : RDKit) (mol : Mol) (m : MoleculeDB) :
    (ChemistryService.calculate_properties rk mol = MoleculeProperties.empty ∨
      (ChemistryService.calculate_properties rk mol).isFull = true)
    ∧ ((localToResponse m).properties = none ↔ m.logp = none)
    ∧ (∀ p, (localToResponse m).properties = some p →
        p.logP = m.logp ∧ p.tpsa = m.tpsa ∧ p.hbondDonors = m.hbd ∧
        p.hbondAcceptors = m.hba ∧ p.rotatablebonds = m.rotatable_bonds ∧
        p.lipinski = m.lipinski_pass) := by
  refine ⟨?_, ?_, ?_⟩
  · unfold ChemistryService.calculate_properties
    cases rk.logP mol <;> cases rk.tpsaD mol <;> cases rk.hDonors mol <;>
        cases rk.hAcceptors mol <;> cases rk.rotBonds mol <;>
      first
        | exact Or.inl rfl
        | (rename_i lp tp hd ha rb
           dsimp only
           by_cases hc : (roundTo2 lp ≤ 5 ∧ hd ≤ 5 ∧ ha ≤ 10)
           · rw [if_pos hc]
             cases rk.molWt mol with
             | ok wt => exact Or.inr rfl
             | error e => exact Or.inl rfl
           · rw [if_neg hc]
             exact Or.inr rfl)
  · cases hl : m.logp <;> simp [localToResponse, hl]
  · intro p hp
    cases hl : m.logp with
    | none => simp [localToResponse, hl] at hp
    | some v =>
      simp only [localToResponse, hl, Option.isSome_some, if_pos,
        Option.some.injEq] at hp
      subst hp
      exact ⟨rfl, rfl, rfl, rfl, rfl, rfl⟩

/-- Fully-populated local row for the amended-C7 witness. -/
def c7wrow : MoleculeDB :=
  { name := "w", smiles := "s", inchi := "i", inchi_key := "k",
    logp := some 2, tpsa := some 30, hbd := some 1, hba := some 2,
    rotatable_bonds := some 3, lipinski_pass := some true }

/-- The properties record the endpoint attaches to `c7wrow`. -/
def c7wprops : MoleculeProperties :=
  { logP := some 2, tpsa := some 30, hbondDonors := some 1,
    hbondAcceptors := some 2, rotatablebonds := some 3, lipinski := some true }

/-- Witness for the amended C7, at the stub oracle and a fully-populated
local row. -/
theorem C7_amended_atomicity_witness :
    (ChemistryService.calculate_properties rkStub 0 = MoleculeProperties.empty ∨
      (ChemistryService.calculate_properties rkStub 0).isFull = true)
    ∧ ((localToResponse c7wrow).properties = none ↔ c7wrow.logp = none)
    ∧ (c7wprops.logP = c7wrow.logp ∧ c7wprops.tpsa = c7wrow.tpsa ∧
        c7wprops.hbondDonors = c7wrow.hbd ∧ c7wprops.hbondAcceptors = c7wrow.hba ∧
        c7wprops.rotatablebonds = c7wrow.rotatable_bonds ∧
        c7wprops.lipinski = c7wrow.lipinski_pass) := by
  have h := C7_amended_atomicity rkStub 0 c7wrow
  exact ⟨h.1, h.2.1, h.2.2 c7wprops rfl⟩

/-- Row named `abc` for the wildcard counterexample. -/
def c8wrow : MoleculeDB :=
  { name := "abc", smiles := "S8w", inchi := "I8w", inchi_key := "K8w" }

/-- C8 counterexample: the claim's "case-insensitive substring" reading of
the name search is false on the code.  The query is interpolated
unescaped into the ILIKE pattern (line 324), so its `_` acts as a
single-character wildcard: searching for `a_c` returns the row named
`abc` although `a_c` is not a substring of `abc`. -/
theorem C8_wildcard_counterexample :
    DatabaseService.search_molecules [c8wrow] "a_c" "name" 5 = [c8wrow]
    ∧ containsCI c8wrow.name "a_c" = false :=
  ⟨by decide, by decide⟩

/-- Boolean equality from the equivalence of the two truth conditions. -/
theorem bool_eq_of_iff {a b : Bool} (h : a = true ↔ b = true) : a = b := by
  cases a <;> cases b <;> simp_all

/-- Tokenizer step on a leading `%`. -/
theorem likeToks_percent_cons (l : List Char) :
    likeToks ('%' :: l) = .any :: likeToks l := by
  rw [likeToks.eq_def]
  dsimp only
  rw [if_neg (by decide), if_pos rfl]

/-- Tokenizer step on a leading non-metacharacter. -/
theorem likeToks_cons_ne (c : Char) (l : List Char) (hc1 : ¬ c = '\\')
    (hc2 : ¬ c = '%') (hc3 : ¬ c = '_') :
    likeToks (c :: l) = .lit c :: likeToks l := by
  rw [likeToks.eq_def]
  dsimp only
  rw [if_neg hc1, if_neg hc2, if_neg hc3]

/-- Tokenizing a metacharacter-free run followed by `%`. -/
theorem likeToks_lit_append (l : List Char) (hp : '%' ∉ l) (hu : '_' ∉ l)
    (hb : '\\' ∉ l) : likeToks (l ++ ['%']) = l.map .lit ++ [.any] := by
  induction l with
  | nil => rfl
  | cons c rest ih =>
    have hc1 : ¬ c = '\\' := fun h => hb (List.mem_cons.mpr (Or.inl h.symm))
    have hc2 : ¬ c = '%' := fun h => hp (List.mem_cons.mpr (Or.inl h.symm))
    have hc3 : ¬ c = '_' := fun h => hu (List.mem_cons.mpr (Or.inl h.symm))
    have hp' : '%' ∉ rest := fun h => hp (List.mem_cons_of_mem _ h)
    have hu' : '_' ∉ rest := fun h => hu (List.mem_cons_of_mem _ h)
    have hb' : '\\' ∉ rest := fun h => hb (List.mem_cons_of_mem _ h)
    show likeToks (c :: (rest ++ ['%'])) = .lit c :: rest.map .lit ++ [.any]
    rw [likeToks_cons_ne c _ hc1 hc2 hc3, ih hp' hu' hb']
    rfl

/-- `likeSegs` always returns at least one segment. -/
theorem likeSegs_ne_nil (l : List LikeTok) : likeSegs l ≠ [] := by
  cases l with
  | nil => simp [likeSegs]
  | cons t rest =>
    rw [likeSegs]
    by_cases ht : t = LikeTok.any
    · rw [if_pos ht]; simp
    · rw [if_neg ht]; cases h : likeSegs rest <;> simp

/-- Segments of a `%`-free token run followed by a final `%`. -/
theorem likeSegs_lits (Q : List LikeTok) (h : LikeTok.any ∉ Q) :
    likeSegs (Q ++ [.any]) = [Q, []] := by
  induction Q with
  | nil => rfl
  | cons t Q' ih =>
    have ht : ¬ t = LikeTok.any := fun he => h (List.mem_cons.mpr (Or.inl he.symm))
    have h' : LikeTok.any ∉ Q' := fun he => h (List.mem_cons_of_mem _ he)
    show likeSegs (t :: (Q' ++ [.any])) = [t :: Q', []]
    rw [likeSegs, if_neg ht, ih h']

/-- The empty segment matches at the very first position. -/
theorem findSeg_nil_seg : ∀ t, findSeg [] t = some t := by
  intro t
  cases t with
  | nil => rfl
  | cons x ts => simp [findSeg, segMatchAt]

/-- Matching the three segments of a `%seg%` pattern is searching for the
one floating segment. -/
theorem matchSegs_substr_form (seg : List LikeTok) (t : List Char) :
    matchSegs [[], seg, []] t = (findSeg seg t).isSome := by
  cases h : findSeg seg t with
  | some t2 => simp [matchSegs, findSeg_nil_seg, h, segMatchAt]
  | none => simp [matchSegs, findSeg_nil_seg, h]

/-- A literal-token segment matches a prefix exactly when the underlying
characters are that prefix. -/
theorem segMatchAt_lits (Q : List Char) :
    ∀ t, segMatchAt (Q.map .lit) t = decide (t.take Q.length = Q) := by
  induction Q with
  | nil => intro t; simp [segMatchAt]
  | cons c Q' ih =>
    intro t
    cases t with
    | nil => simp [segMatchAt]
    | cons x ts =>
      by_cases hx : x = c
      · simp [segMatchAt, ih ts, hx]
      · simp [segMatchAt, hx]

/-- `findSeg` succeeds exactly when the segment matches at some offset. -/
theorem findSeg_isSome_iff (seg : List LikeTok) :
    ∀ t, (findSeg seg t).isSome = true ↔ ∃ i, segMatchAt seg (t.drop i) = true := by
  intro t
  induction t with
  | nil =>
    cases seg with
    | nil => exact ⟨fun _ => ⟨0, rfl⟩, fun _ => rfl⟩
    | cons a ss => simp [findSeg, segMatchAt]
  | cons x ts ih =>
    by_cases hm : segMatchAt seg (x :: ts) = true
    · constructor
      · intro _; exact ⟨0, by simpa using hm⟩
      · intro _; simp [findSeg, hm]
    · have hfs : findSeg seg (x :: ts) = findSeg seg ts := by
        rw [findSeg, if_neg hm]
      rw [hfs, ih]
      constructor
      · rintro ⟨i, hi⟩
        exact ⟨i + 1, by simpa using hi⟩
      · rintro ⟨i, hi⟩
        cases i with
        | zero => exact absurd (by simpa using hi) hm
        | succ j => exact ⟨j, by simpa using hi⟩

/-- For a query free of the LIKE metacharacters `%`, `_` and backslash,
the code's ILIKE containment coincides with literal case-insensitive
substring containment. -/
theorem ilike_eq_substr_of_plain (nm q : String)
    (hp : '%' ∉ lowerChars q) (hu : '_' ∉ lowerChars q)
    (hb : '\\' ∉ lowerChars q) :
    ilikeContains nm q = containsCI nm q := by
  unfold ilikeContains containsCI
  rw [show likeToks ('%' :: (lowerChars q ++ ['%']))
        = .any :: ((lowerChars q).map .lit ++ [.any]) by
      rw [likeToks_percent_cons, likeToks_lit_append (lowerChars q) hp hu hb]]
  rw [show likeSegs (.any :: ((lowerChars q).map .lit ++ [.any]))
        = [[], (lowerChars q).map .lit, []] by
      rw [likeSegs, if_pos rfl, likeSegs_lits]
      intro hmem
      obtain ⟨c, _, hc⟩ := List.mem_map.mp hmem
      cases hc]
  rw [matchSegs_substr_form]
  apply bool_eq_of_iff
  rw [findSeg_isSome_iff]
  unfold listSub
  rw [List.any_eq_true]
  constructor
  · rintro ⟨i, hi⟩
    rw [segMatchAt_lits] at hi
    have hi' := of_decide_eq_true hi
    by_cases hile : i ≤ (lowerChars nm).length
    · refine ⟨i, List.mem_range.mpr (by omega), ?_⟩
      exact decide_eq_true hi'
    · have hdrop : (lowerChars nm).drop i = [] :=
        List.drop_eq_nil_of_le (by omega)
      have hdrop2 : (lowerChars nm).drop (lowerChars nm).length = [] :=
        List.drop_eq_nil_of_le le_rfl
      rw [hdrop] at hi'
      refine ⟨(lowerChars nm).length, List.mem_range.mpr (by omega), ?_⟩
      rw [hdrop2]
      exact decide_eq_true hi'
  · rintro ⟨i, _, hi⟩
    refine ⟨i, ?_⟩
    rw [segMatchAt_lits]
    exact hi

/-- C8 (amended): `name` search matches by the code's SQL ILIKE
`'%query%'` semantics — case-insensitive containment in which an
unescaped `%` in the query matches any character sequence, an unescaped
`_` matches exactly one character, and a backslash escapes the following
character; for queries containing none of `%`, `_`, `\\` this coincides
with case-insensitive substring matching.  `cas`, `smiles` and
`inchi_key` match by exact equality on the corresponding field, and any
other search type (including the schema-accepted `inchi`) yields the
empty result list rather than an error. -/
theorem C8_search_types_amended (db : List MoleculeDB) (q : String) (lim : Nat) :
    (∀ m, m ∈ DatabaseService.search_molecules db q "name" lim →
        m ∈ db ∧ ilikeContains m.name q = true)
    ∧ ('%' ∉ lowerChars q → '_' ∉ lowerChars q → '\\' ∉ lowerChars q →
        ∀ nm : String, ilikeContains nm q = containsCI nm q)
    ∧ (∀ m, m ∈ DatabaseService.search_molecules db q "cas" lim →
        m ∈ db ∧ m.cas_number = some q)
    ∧ (∀ m, m ∈ DatabaseService.search_molecules db q "smiles" lim →
        m ∈ db ∧ m.smiles = q)
    ∧ (∀ m, m ∈ DatabaseService.search_molecules db q "inchi_key" lim →
        m ∈ db ∧ m.inchi_key = q)
    ∧ (∀ t, t ≠ "name" → t ≠ "cas" → t ≠ "smiles" → t ≠ "inchi_key" →
        DatabaseService.search_molecules db q t lim = [])
    ∧ DatabaseService.search_molecules db q "inchi" lim = [] := by
  have hname : DatabaseService.search_molecules db q "name" lim
      = (db.filter (fun m => ilikeContains m.name q)).take lim := by
    unfold DatabaseService.search_molecules
    rw [if_pos rfl]
  have hcas : DatabaseService.search_molecules db q "cas" lim
      = (db.filter (fun m => m.cas_number = some q)).take lim := by
    unfold DatabaseService.search_molecules
    rw [if_neg (by decide), if_pos rfl]
  have hsm : DatabaseService.search_molecules db q "smiles" lim
      = (db.filter (fun m => m.smiles = q)).take lim := by
    unfold DatabaseService.search_molecules
    rw [if_neg (by decide), if_neg (by decide), if_pos rfl]
  have hik : DatabaseService.search_molecules db q "inchi_key" lim
      = (db.filter (fun m => m.inchi_key = q)).take lim := by
    unfold DatabaseService.search_molecules
    rw [if_neg (by decide), if_neg (by decide), if_neg (by decide), if_pos rfl]
  have hother : ∀ t, t ≠ "name" → t ≠ "cas" → t ≠ "smiles" → t ≠ "inchi_key" →
      DatabaseService.search_molecules db q t lim = [] := by
    intro t h1 h2 h3 h4
    unfold DatabaseService.search_molecules
    rw [if_neg h1, if_neg h2, if_neg h3, if_neg h4]
  refine ⟨?_, fun hp hu hb nm => ilike_eq_substr_of_plain nm q hp hu hb, ?_, ?_, ?_,
    hother, hother "inchi" (by decide) (by decide) (by decide) (by decide)⟩
  · intro m hm
    rw [hname] at hm
    have hm' := List.mem_of_mem_take hm
    exact ⟨(List.mem_filter.mp hm').1, (List.mem_filter.mp hm').2⟩
  · intro m hm
    rw [hcas] at hm
    have hm' := List.mem_of_mem_take hm
    exact ⟨(List.mem_filter.mp hm').1, of_decide_eq_true (List.mem_filter.mp hm').2⟩
  · intro m hm
    rw [hsm] at hm
    have hm' := List.mem_of_mem_take hm
    exact ⟨(List.mem_filter.mp hm').1, of_decide_eq_true (List.mem_filter.mp hm').2⟩
  · intro m hm
    rw [hik] at hm
    have hm' := List.mem_of_mem_take hm
    exact ⟨(List.mem_filter.mp hm').1, of_decide_eq_true (List.mem_filter.mp hm').2⟩

/-- Local row used to exercise the search-type dispatch. -/
def c8row : MoleculeDB :=
  { name := "Cocaine", smiles := "S8", inchi := "I8", inchi_key := "K8",
    cas_number := some "50-36-2" }

/-- Witness for the amended C8: the `_` wildcard of query `c_ca` matches
inside `Cocaine`; the wildcard-free query `coca` coincides with substring
matching; and the schema-accepted `inchi` search type returns the empty
list. -/
theorem C8_search_types_amended_witness :
    (c8row ∈ [c8row] ∧ ilikeContains c8row.name "c_ca" = true)
    ∧ ilikeContains "Cocaine" "coca" = containsCI "Cocaine" "coca"
    ∧ DatabaseService.search_molecules [c8row] "coca" "inchi" 5 = [] := by
  have h1 := C8_search_types_amended [c8row] "c_ca" 5
  have h2 := C8_search_types_amended [c8row] "coca" 5
  exact ⟨h1.1 c8row (by decide),
    h2.2.1 (by decide) (by decide) (by decide) "Cocaine",
    h2.2.2.2.2.2.2⟩

/-- Serializer dispatch evaluated on the four 3D formats. -/
theorem serialize_ok_mol2 (rk : RDKit) (tf : String) (m2 : Mol) :
    ChemistryService.convert_serialize rk "mol2" tf (.ok m2)
      = ((rk.molBlock m2).map strEncode,
          ["MOL2 format not fully supported, returning SDF"]) := rfl

/-- Serializer dispatch on `sdf`. -/
theorem serialize_ok_sdf (rk : RDKit) (tf : String) (m2 : Mol) :
    ChemistryService.convert_serialize rk "sdf" tf (.ok m2)
      = ((rk.molBlock m2).map strEncode, []) := rfl

/-- Serializer dispatch on `pdbqt`. -/
theorem serialize_ok_pdbqt (rk : RDKit) (tf : String) (m2 : Mol) :
    ChemistryService.convert_serialize rk "pdbqt" tf (.ok m2)
      = ((rk.pdbBlock m2).map strEncode,
          ["PDBQT format requires additional processing, returning PDB"]) := rfl

/-- Serializer dispatch on `pdb`. -/
theorem serialize_ok_pdb (rk : RDKit) (tf : String) (m2 : Mol) :
    ChemistryService.convert_serialize rk "pdb" tf (.ok m2)
      = ((rk.pdbBlock m2).map strEncode, []) := rfl

/-- Serializer dispatch on a failed preparation. -/
theorem serialize_err (rk : RDKit) (fmt tf e : String) :
    ChemistryService.convert_serialize rk fmt tf (.error e) = (.error e, []) := rfl

/-- The preparation pipeline coincides on any two 3D-requiring formats. -/
theorem convert_prep_mol2_sdf (rk : RDKit) (mol : Mol) (ah mz : Bool) :
    ChemistryService.convert_prep rk mol "mol2" ah mz
      = ChemistryService.convert_prep rk mol "sdf" ah mz := by
  unfold ChemistryService.convert_prep
  cases h0 : (if ah then rk.addHs mol else .ok mol) <;> rfl

/-- The preparation pipeline coincides on `pdbqt` and `pdb`. -/
theorem convert_prep_pdbqt_pdb (rk : RDKit) (mol : Mol) (ah mz : Bool) :
    ChemistryService.convert_prep rk mol "pdbqt" ah mz
      = ChemistryService.convert_prep rk mol "pdb" ah mz := by
  unfold ChemistryService.convert_prep
  cases h0 : (if ah then rk.addHs mol else .ok mol) <;> rfl

/-- C9: the two formats without a native serializer fall back to the
nearest supported format — `mol2` produces byte-for-byte the `sdf` output
and `pdbqt` the `pdb` output, for every molecule and flag combination —
and whenever the preparation pipeline succeeds the fallback is signalled
by exactly the warning message, not by a failure. -/
theorem C9_fallback_formats (rk : RDKit) (mol : Mol) (ah mz : Bool) :
    (ChemistryService.convert_format rk mol "mol2" ah mz).1
        = (ChemistryService.convert_format rk mol "sdf" ah mz).1
    ∧ (ChemistryService.convert_format rk mol "pdbqt" ah mz).1
        = (ChemistryService.convert_format rk mol "pdb" ah mz).1
    ∧ ((ChemistryService.convert_format rk mol "sdf" ah mz).1.okB = true →
        (ChemistryService.convert_format rk mol "mol2" ah mz).2
          = ["MOL2 format not fully supported, returning SDF"])
    ∧ ((ChemistryService.convert_format rk mol "pdb" ah mz).1.okB = true →
        (ChemistryService.convert_format rk mol "pdbqt" ah mz).2
          = ["PDBQT format requires additional processing, returning PDB"]) := by
  refine ⟨?_, ?_, ?_, ?_⟩
  · unfold ChemistryService.convert_format
    rw [show strLower "mol2" = "mol2" from rfl, show strLower "sdf" = "sdf" from rfl]
    dsimp only
    rw [convert_prep_mol2_sdf]
    cases hp : ChemistryService.convert_prep rk mol "sdf" ah mz with
    | error e => rw [serialize_err, serialize_err]
    | ok m2 =>
      rw [serialize_ok_mol2, serialize_ok_sdf]
      cases hb : rk.molBlock m2 <;> rfl
  · unfold ChemistryService.convert_format
    rw [show strLower "pdbqt" = "pdbqt" from rfl, show strLower "pdb" = "pdb" from rfl]
    dsimp only
    rw [convert_prep_pdbqt_pdb]
    cases hp : ChemistryService.convert_prep rk mol "pdb" ah mz with
    | error e => rw [serialize_err, serialize_err]
    | ok m2 =>
      rw [serialize_ok_pdbqt, serialize_ok_pdb]
      cases hb : rk.pdbBlock m2 <;> rfl
  · intro hok
    unfold ChemistryService.convert_format at hok ⊢
    rw [show strLower "sdf" = "sdf" from rfl] at hok
    rw [show strLower "mol2" = "mol2" from rfl]
    dsimp only at hok ⊢
    rw [convert_prep_mol2_sdf]
    cases hp : ChemistryService.convert_prep rk mol "sdf" ah mz with
    | error e =>
      rw [hp, serialize_err] at hok
      simp [Except.okB] at hok
    | ok m2 =>
      rw [serialize_ok_mol2]
      cases hb : rk.molBlock m2 <;> rfl
  · intro hok
    unfold ChemistryService.convert_format at hok ⊢
    rw [show strLower "pdb" = "pdb" from rfl] at hok
    rw [show strLower "pdbqt" = "pdbqt" from rfl]
    dsimp only at hok ⊢
    rw [convert_prep_pdbqt_pdb]
    cases hp : ChemistryService.convert_prep rk mol "pdb" ah mz with
    | error e =>
      rw [hp, serialize_err] at hok
      simp [Except.okB] at hok
    | ok m2 =>
      rw [serialize_ok_pdbqt]
      cases hb : rk.pdbBlock m2 <;> rfl

/-- Witness for C9 at the stub oracle: `mol2` output equals `sdf` output
and the fallback warning is emitted. -/
theorem C9_fallback_formats_witness :
    (ChemistryService.convert_format rkStub 0 "mol2" true true).1
        = (ChemistryService.convert_format rkStub 0 "sdf" true true).1
    ∧ (ChemistryService.convert_format rkStub 0 "mol2" true true).2
        = ["MOL2 format not fully supported, returning SDF"] := by
  have h := C9_fallback_formats rkStub 0 true true
  exact ⟨h.1, h.2.2.1 rfl⟩

/-- The external-hit loop preserves the number of hits when it succeeds. -/
theorem processHits_length (rk : RDKit) :
    ∀ (l : List PubChemHit) (r : List MoleculeResponse),
      processHits rk l = .ok r → r.length = l.length := by
  intro l
  induction l with
  | nil =>
    intro r h
    simp only [processHits] at h
    cases h
    rfl
  | cons hh t ih =>
    intro r h
    simp only [processHits] at h
    cases h1 : hitToResponse rk hh with
    | ok x =>
      rw [h1] at h
      cases h2 : processHits rk t with
      | ok rs =>
        rw [h2] at h
        cases h
        simp [ih rs h2]
      | error e => rw [h2] at h; cases h
    | error e => rw [h1] at h; cases h

/-- The local store adapter returns at most `limit` rows. -/
theorem search_db_length_le (db : List MoleculeDB) (q t : String) (lim : Nat) :
    (DatabaseService.search_molecules db q t lim).length ≤ lim := by
  unfold DatabaseService.search_molecules
  split
  · exact List.length_take_le _ _
  · split
    · exact List.length_take_le _ _
    · split
      · exact List.length_take_le _ _
      · split
        · exact List.length_take_le _ _
        · simp

/-- `max(0, limit - count)` over ℤ is truncated subtraction over ℕ. -/
theorem remaining_limit_eq (L n : Nat) : remaining_limit L n = L - n := by
  unfold remaining_limit
  omega

/-- Size of a successful aggregation: local count plus exactly
`min remaining |externalHits|` external entries. -/
theorem aggregated_ok_length (rk : RDKit) (db : List MoleculeDB)
    (raw : List (Except String PubChemHit)) (req : SearchRequest)
    (all : List MoleculeResponse) (h : aggregated rk db raw req = .ok all) :
    all.length
      = (DatabaseService.search_molecules db req.query req.type req.limit).length
        + min (remaining_limit req.limit
            (DatabaseService.search_molecules db req.query req.type req.limit).length)
          (ExternalAPIService.search_pubchem req.type raw).length := by
  unfold aggregated at h
  simp only [List.length_map] at h
  split at h
  · rename_i hpos
    cases hph : processHits rk ((ExternalAPIService.search_pubchem req.type raw).take
        (remaining_limit req.limit
          (DatabaseService.search_molecules db req.query req.type req.limit).length)) with
    | ok ext =>
      rw [hph] at h
      cases h
      rw [List.length_append, List.length_map,
          processHits_length rk _ ext hph, List.length_take]
    | error e => rw [hph] at h; cases h
  · rename_i hneg
    cases h
    have h0 : remaining_limit req.limit
        (DatabaseService.search_molecules db req.query req.type req.limit).length = 0 := by
      omega
    rw [List.length_map, h0]
    simp

/-- C10: a successful response never truncates — `total` equals the length
of the returned molecule list and never exceeds the requested limit,
because local rows are capped at `limit` and external additions at the
remaining slots. -/
theorem C10_no_truncation (rk : RDKit) (db : List MoleculeDB)
    (raw : List (Except String PubChemHit)) (req : SearchRequest)
    (resp : SearchResponse)
    (hok : search_molecules rk db raw req = .ok resp) :
    resp.molecules.length = resp.total ∧ resp.total ≤ req.limit := by
  unfold search_molecules at hok
  cases hagg : aggregated rk db raw req with
  | error e => rw [hagg] at hok; cases hok
  | ok all =>
    rw [hagg] at hok
    cases hok
    have hlen := aggregated_ok_length rk db raw req all hagg
    have hle : all.length ≤ req.limit := by
      rw [hlen, remaining_limit_eq]
      have h1 := search_db_length_le db req.query req.type req.limit
      have h2 := Nat.min_le_left
        (req.limit
          - (DatabaseService.search_molecules db req.query req.type req.limit).length)
        (ExternalAPIService.search_pubchem req.type raw).length
      omega
    refine ⟨?_, hle⟩
    simp only
    rw [List.length_take]
    omega

/-- Local row for the C10 witness. -/
def c10row : MoleculeDB :=
  { name := "ten", smiles := "S10", inchi := "I10", inchi_key := "K10" }

/-- External hit for the C10 witness. -/
def c10hit : PubChemHit :=
  { name := "ten2", smiles := some "CCO", inchi := some "I11",
    inchi_key := some "K11" }

/-- Search request for the C10 witness. -/
def c10req : SearchRequest := { query := "te", type := "name", limit := 3 }

/-- The concrete response of the C10 scenario. -/
def c10resp : SearchResponse :=
  match search_molecules rkStub [c10row] [.ok c10hit] c10req with
  | .ok r => r
  | .error _ => { molecules := [], total := 0, query := "", search_type := "" }

/-- Witness for C10 at a concrete store, hit stream and request. -/
theorem C10_no_truncation_witness :
    c10resp.molecules.length = c10resp.total ∧ c10resp.total ≤ 3 := by
  have h := C10_no_truncation rkStub [c10row] [.ok c10hit] c10req c10resp rfl
  exact ⟨h.1, h.2⟩

/-- C5: the aggregator computes `remaining = max(0, limit − |local|)`,
consults no external source when `remaining = 0` (the response is the one
obtained with an empty external stream), and otherwise consumes exactly
`remaining` external slots, so a successful `total` is the local count
plus `min remaining |externalHits|`. -/
theorem C5_remaining_slots (rk : RDKit) (db : List MoleculeDB)
    (raw : List (Except String PubChemHit)) (req : SearchRequest)
    (resp : SearchResponse)
    (hok : search_molecules rk db raw req = .ok resp) :
    ((remaining_limit req.limit
        (DatabaseService.search_molecules db req.query req.type req.limit).length : ℤ)
      = max 0 ((req.limit : ℤ)
        - (DatabaseService.search_molecules db req.query req.type req.limit).length))
    ∧ (remaining_limit req.limit
          (DatabaseService.search_molecules db req.query req.type req.limit).length = 0 →
        search_molecules rk db raw req = search_molecules rk db [] req)
    ∧ resp.total
      = (DatabaseService.search_molecules db req.query req.type req.limit).length
        + min (remaining_limit req.limit
            (DatabaseService.search_molecules db req.query req.type req.limit).length)
          (ExternalAPIService.search_pubchem req.type raw).length := by
  refine ⟨?_, ?_, ?_⟩
  · unfold remaining_limit
    rw [Int.toNat_of_nonneg (le_max_left 0 _)]
  · intro h0
    unfold search_molecules aggregated
    simp only [List.length_map, h0]
    rfl
  · unfold search_molecules at hok
    cases hagg : aggregated rk db raw req with
    | error e => rw [hagg] at hok; cases hok
    | ok all =>
      rw [hagg] at hok
      cases hok
      exact aggregated_ok_length rk db raw req all hagg

/-- Local row matched by the C5 scenario (fifteen copies in the store). -/
def c5row : MoleculeDB :=
  { name := "aspirin", smiles := "S5", inchi := "I5", inchi_key := "K5" }

/-- External hit for the C5 scenario. -/
def c5hit : PubChemHit :=
  { name := "a5", smiles := some "CCO", inchi := some "I5x",
    inchi_key := some "K5x" }

/-- A store holding fifteen matching rows. -/
def c5db : List MoleculeDB := List.replicate 15 c5row

/-- A PubChem stream offering seven hits. -/
def c5raw : List (Except String PubChemHit) := List.replicate 7 (.ok c5hit)

/-- Search request with limit twenty. -/
def c5req : SearchRequest := { query := "asp", type := "name", limit := 20 }

/-- The concrete response of the C5 scenario. -/
def c5resp : SearchResponse :=
  match search_molecules rkStub c5db c5raw c5req with
  | .ok r => r
  | .error _ => { molecules := [], total := 0, query := "", search_type := "" }

/-- Witness for C5: fifteen local hits with limit twenty leave exactly
five external slots, and the total is 15 + min 5 7 = 20. -/
theorem C5_remaining_slots_witness :
    remaining_limit 20 (DatabaseService.search_molecules c5db "asp" "name" 20).length = 5
    ∧ c5resp.total = 20 := by
  have h := C5_remaining_slots rkStub c5db c5raw c5req c5resp rfl
  refine ⟨by decide, ?_⟩
  rw [h.2.2]
  decide
